import Mathlib

/-!
Shallow embedding of `mesh_gateway.py`: the frame decoder
(`Interface.get_message`), the payload interpreter
(`SensorEvent.from_buffer`), and the CSV event-sink initialization
performed by `Interface.__init__`.

Python exceptions raised by the embedded code (`ValueError` from an
`IntEnum` constructor, `IndexError` from out-of-range indexing) are
modelled as the error side of `Except`.
-/

/-- A Python exception escaping the embedded code: `ValueError v` is the
error raised by an `IntEnum` constructor on an unrecognized value `v`;
`indexError` is raised by indexing a `bytes` object out of range. -/
inductive PyErr where
  | valueError (v : Nat)
  | indexError
deriving DecidableEq, Repr

/-- Big-endian interpretation of a byte list, as in
`int.from_bytes(buf, byteorder="big")` (unsigned, the Python default). -/
def beBytes (l : List Nat) : Nat :=
  l.foldl (fun acc b => acc * 256 + b) 0

/-- `class SensorTypes(IntEnum)`: `Temperature = 0x75`, `Humidity = 0x76`. -/
inductive SensorTypes where
  | Temperature
  | Humidity
deriving DecidableEq, Repr

/-- The numeric value of a `SensorTypes` member (its `IntEnum` value). -/
def SensorTypes.code : SensorTypes → Nat
  | .Temperature => 0x75
  | .Humidity => 0x76

/-- `SensorTypes(n)`: the `IntEnum` constructor; raises `ValueError(n)`
for any value other than `0x75` and `0x76`. -/
def SensorTypes.ofValue (n : Nat) : Except PyErr SensorTypes :=
  if n = 0x75 then .ok .Temperature
  else if n = 0x76 then .ok .Humidity
  else .error (.valueError n)

/-- A decoded sensor event: `node_addr`, `sensor`, `value`.  `value` is
modelled as an exact rational (Python computes a float via `/ 100`). -/
structure SensorEvent where
  node_addr : Nat
  sensor : SensorTypes
  value : ℚ
deriving DecidableEq, Repr

/-- `SensorEvent.from_buffer(buf)`:
`node_addr = int.from_bytes(buf[0:2], "big")`,
`sensor = SensorTypes(int.from_bytes(buf[2:4], "big"))` (may raise
`ValueError`), `value = int.from_bytes(buf[4:], "big") / 100`. -/
def from_buffer (buf : List Nat) : Except PyErr SensorEvent :=
  let node_addr := beBytes (buf.take 2)
  match SensorTypes.ofValue (beBytes ((buf.drop 2).take 2)) with
  | .error e => .error e
  | .ok s => .ok ⟨node_addr, s, (beBytes (buf.drop 4) : ℚ) / 100⟩

/-- `class MessageType(IntEnum)`: `MSG_POLL = 0`, `MSG_BACKLOG = 1`,
`MSG_PUB = 1` (an alias of `MSG_BACKLOG`, since `IntEnum` members with
equal values are aliases), `MSG_ACK = 0xFE`, `MSG_NACK = 0xFF`. -/
inductive MessageType where
  | MSG_POLL
  | MSG_BACKLOG
  | MSG_ACK
  | MSG_NACK
deriving DecidableEq, Repr

/-- The numeric value of a `MessageType` member. -/
def MessageType.toNat : MessageType → Nat
  | .MSG_POLL => 0
  | .MSG_BACKLOG => 1
  | .MSG_ACK => 0xFE
  | .MSG_NACK => 0xFF

/-- `MessageType(n)`: the `IntEnum` constructor; `MessageType(1)` yields
the canonical member `MSG_BACKLOG`; any value outside
`{0, 1, 0xFE, 0xFF}` raises `ValueError(n)`. -/
def MessageType.ofValue (n : Nat) : Except PyErr MessageType :=
  if n = 0 then .ok .MSG_POLL
  else if n = 1 then .ok .MSG_BACKLOG
  else if n = 0xFE then .ok .MSG_ACK
  else if n = 0xFF then .ok .MSG_NACK
  else .error (.valueError n)

/-- A `Message`.  The Python class only declares the five attributes;
`Message()` assigns none of them, so each field is an `Option`, `none`
meaning "attribute not set" (accessing it raises `AttributeError`). -/
structure Message where
  start : Option Nat
  msg_type : Option MessageType
  payload_size : Option Nat
  payload : Option (List Nat)
  crc : Option Nat
deriving DecidableEq, Repr

/-- `Message()`: a freshly constructed message, no attribute assigned. -/
def Message.new : Message :=
  ⟨none, none, none, none, none⟩

/-- `buf[i]` on a Python `bytes` object: raises `IndexError` when `i` is
out of range. -/
def byteAt (l : List Nat) (i : Nat) : Except PyErr Nat :=
  match l.get? i with
  | some v => .ok v
  | none => .error .indexError

/-- `Interface.get_message`.  The serial handle is modelled as
`Option (List Nat)`: `none` is `self._ser is None`; `some src` is an
open handle whose remaining byte stream is `src`, so that
`self._ser.read(10)` returns `src.take 10` (fewer than 10 bytes only at
end of stream).  The attribute assignments run in source order:
`start = buf[0]`, `msg_type = MessageType(buf[1])`,
`payload_size = buf[2]`, `payload = buf[3:9]`, `crc = buf[9]`; the first
exception raised aborts the call.  No checksum, start-marker or length
validation is performed.  When `_ser` is `None`, `Message()` is
returned. -/
def get_message (ser : Option (List Nat)) : Except PyErr Message :=
  match ser with
  | none => .ok Message.new
  | some src =>
    let buf := src.take 10
    match byteAt buf 0 with
    | .error e => .error e
    | .ok b0 =>
      match byteAt buf 1 with
      | .error e => .error e
      | .ok b1 =>
        match MessageType.ofValue b1 with
        | .error e => .error e
        | .ok mt =>
          match byteAt buf 2 with
          | .error e => .error e
          | .ok b2 =>
            let payload := (buf.drop 3).take 6
            match byteAt buf 9 with
            | .error e => .error e
            | .ok b9 =>
              .ok ⟨some b0, some mt, some b2, some payload, some b9⟩

/-- The header row written by `Interface.__init__`:
`["Timestamp", "Node Addr", "Sensor", "Value"]`. -/
def headerRow : List String :=
  ["Timestamp", "Node Addr", "Sensor", "Value"]

/-- The CSV-sink initialization in `Interface.__init__`: the file at the
log path is modelled as `Option (List (List String))` (`none` when the
file does not exist).  `open(path, "xt")` creates the file and writes
the header row exactly when the file does not yet exist; if it exists,
`FileExistsError` is caught and the file is left untouched. -/
def initSink : Option (List (List String)) → Option (List (List String))
  | none => some [headerRow]
  | some rows => some rows

/-- Count of header rows in a sink file. -/
def headerCount (f : Option (List (List String))) : Nat :=
  (f.getD []).count headerRow

/-- `SensorTypes(n)` succeeds exactly with the member whose value is `n`. -/
lemma SensorTypes.code_of_ofValue (n : Nat) (s : SensorTypes)
    (h : SensorTypes.ofValue n = .ok s) : s.code = n := by
  unfold SensorTypes.ofValue at h
  split_ifs at h with h1 h2
  · subst h1
    cases h
    rfl
  · subst h2
    cases h
    rfl

/-- The spec's `BadChecksum` contract read as a property of
`get_message`, for a given 1-byte checksum function over bytes 0-8:
every 10-byte frame whose last byte disagrees with the checksum is
rejected, never returned as a `Message`. -/
def SpecChecksumRejects (checksum : List Nat → Nat) : Prop :=
  ∀ b0 b1 b2 b3 b4 b5 b6 b7 b8 b9 : Nat,
    b9 ≠ checksum [b0, b1, b2, b3, b4, b5, b6, b7, b8] →
    ∀ m : Message,
      get_message (some [b0, b1, b2, b3, b4, b5, b6, b7, b8, b9]) ≠ .ok m

/-- The spec's `BadStart` contract read as a property of `get_message`,
for a given fixed start marker: every 10-byte frame whose first byte
differs from the marker is rejected, never returned as a `Message`. -/
def SpecBadStartRejects (marker : Nat) : Prop :=
  ∀ b0 b1 b2 b3 b4 b5 b6 b7 b8 b9 : Nat,
    b0 ≠ marker →
    ∀ m : Message,
      get_message (some [b0, b1, b2, b3, b4, b5, b6, b7, b8, b9]) ≠ .ok m

/-- Claim C1 (counterexample): `get_message` performs no checksum
comparison, so no checksum function makes the claimed rejection true:
for any candidate checksum, one of the two frames
`[0xAA,1,6,0,0,0,0,0,0,crc]` with `crc ∈ {0, 1}` has a mismatched crc
yet is still returned as a `Message`. -/
theorem get_message_no_checksum_check :
    ¬ ∃ checksum : List Nat → Nat, SpecChecksumRejects checksum := by
  rintro ⟨ck, h⟩
  by_cases h0 : ck [0xAA, 1, 6, 0, 0, 0, 0, 0, 0] = 0
  · exact h 0xAA 1 6 0 0 0 0 0 0 1 (by rw [h0]; decide)
      ⟨some 0xAA, some .MSG_BACKLOG, some 6, some [0, 0, 0, 0, 0, 0], some 1⟩
      rfl
  · exact h 0xAA 1 6 0 0 0 0 0 0 0 (fun hc => h0 hc.symm)
      ⟨some 0xAA, some .MSG_BACKLOG, some 6, some [0, 0, 0, 0, 0, 0], some 0⟩
      rfl

/-- Claim C1 (amended): `get_message` does not validate the checksum.
For every checksum function and every 10-byte frame with a recognized
`msg_type` byte, even when the last byte disagrees with the checksum of
bytes 0-8, the frame is returned as a `Message` with `crc = buf[9]`,
and no `BadChecksum`-style error exists. -/
theorem get_message_ignores_crc (checksum : List Nat → Nat)
    (b0 b1 b2 b3 b4 b5 b6 b7 b8 b9 : Nat)
    (htype : b1 = 0 ∨ b1 = 1 ∨ b1 = 0xFE ∨ b1 = 0xFF)
    (hcrc : b9 ≠ checksum [b0, b1, b2, b3, b4, b5, b6, b7, b8]) :
    ∃ mt : MessageType, mt.toNat = b1 ∧
      get_message (some [b0, b1, b2, b3, b4, b5, b6, b7, b8, b9]) =
        .ok ⟨some b0, some mt, some b2, some [b3, b4, b5, b6, b7, b8],
          some b9⟩ := by
  rcases htype with h | h | h | h <;> subst h
  · exact ⟨.MSG_POLL, rfl, rfl⟩
  · exact ⟨.MSG_BACKLOG, rfl, rfl⟩
  · exact ⟨.MSG_ACK, rfl, rfl⟩
  · exact ⟨.MSG_NACK, rfl, rfl⟩

/-- Witness for `get_message_ignores_crc` at a concrete frame whose crc
byte 0x00 disagrees with the constant checksum function returning 1. -/
theorem get_message_ignores_crc_witness :
    ∃ mt : MessageType, mt.toNat = 1 ∧
      get_message (some [0xAA, 1, 6, 0, 0x42, 0, 0x75, 9, 0x29, 0]) =
        .ok ⟨some 0xAA, some mt, some 6, some [0, 0x42, 0, 0x75, 9, 0x29],
          some 0⟩ :=
  get_message_ignores_crc (fun _ => 1) 0xAA 1 6 0 0x42 0 0x75 9 0x29 0
    (Or.inr (Or.inl rfl)) (by decide)

/-- Claim C2 (counterexample): `get_message` performs no start-marker
comparison, so no fixed marker makes the claimed rejection true: for
any candidate marker, one of the two frames starting with byte 0 or 1
has a mismatched start byte yet is still returned as a `Message`. -/
theorem get_message_no_start_check :
    ¬ ∃ marker : Nat, SpecBadStartRejects marker := by
  rintro ⟨mk, h⟩
  by_cases h0 : mk = 0
  · exact h 1 1 6 0 0 0 0 0 0 0 (by rw [h0]; decide)
      ⟨some 1, some .MSG_BACKLOG, some 6, some [0, 0, 0, 0, 0, 0], some 0⟩
      rfl
  · exact h 0 1 6 0 0 0 0 0 0 0 (fun hc => h0 hc.symm)
      ⟨some 0, some .MSG_BACKLOG, some 6, some [0, 0, 0, 0, 0, 0], some 0⟩
      rfl

/-- Claim C2 (amended): `get_message` does not validate the start byte.
For every fixed marker and every 10-byte frame with a recognized
`msg_type` byte, even when the first byte differs from the marker, the
frame is returned as a `Message` with `start = buf[0]`, and no
`BadStart`-style error exists. -/
theorem get_message_ignores_start (marker : Nat)
    (b0 b1 b2 b3 b4 b5 b6 b7 b8 b9 : Nat)
    (hstart : b0 ≠ marker)
    (htype : b1 = 0 ∨ b1 = 1 ∨ b1 = 0xFE ∨ b1 = 0xFF) :
    ∃ mt : MessageType, mt.toNat = b1 ∧
      get_message (some [b0, b1, b2, b3, b4, b5, b6, b7, b8, b9]) =
        .ok ⟨some b0, some mt, some b2, some [b3, b4, b5, b6, b7, b8],
          some b9⟩ := by
  rcases htype with h | h | h | h <;> subst h
  · exact ⟨.MSG_POLL, rfl, rfl⟩
  · exact ⟨.MSG_BACKLOG, rfl, rfl⟩
  · exact ⟨.MSG_ACK, rfl, rfl⟩
  · exact ⟨.MSG_NACK, rfl, rfl⟩

/-- Witness for `get_message_ignores_start` at a concrete frame whose
start byte 0x00 differs from the marker 0xAA. -/
theorem get_message_ignores_start_witness :
    ∃ mt : MessageType, mt.toNat = 1 ∧
      get_message (some [0, 1, 6, 0, 0x42, 0, 0x75, 9, 0x29, 0x7F]) =
        .ok ⟨some 0, some mt, some 6, some [0, 0x42, 0, 0x75, 9, 0x29],
          some 0x7F⟩ :=
  get_message_ignores_start 0xAA 0 1 6 0 0x42 0 0x75 9 0x29 0x7F
    (by decide) (Or.inr (Or.inl rfl))

/-- Claim C3: for every 10-byte frame whose start byte equals the
marker, whose crc byte equals the checksum of bytes 0-8, and whose
`msg_type` byte is recognized, `get_message` returns (never an error) a
`Message` with `start = buf[0]`, `msg_type = buf[1]`,
`payload_size = buf[2]`, `payload = buf[3..9]` (6 bytes),
`crc = buf[9]`. -/
theorem get_message_valid_frame_fields (checksum : List Nat → Nat)
    (marker : Nat) (b0 b1 b2 b3 b4 b5 b6 b7 b8 b9 : Nat)
    (hstart : b0 = marker)
    (hcrc : b9 = checksum [b0, b1, b2, b3, b4, b5, b6, b7, b8])
    (htype : b1 = 0 ∨ b1 = 1 ∨ b1 = 0xFE ∨ b1 = 0xFF) :
    ∃ mt : MessageType, mt.toNat = b1 ∧
      get_message (some [b0, b1, b2, b3, b4, b5, b6, b7, b8, b9]) =
        .ok ⟨some b0, some mt, some b2, some [b3, b4, b5, b6, b7, b8],
          some b9⟩ := by
  rcases htype with h | h | h | h <;> subst h
  · exact ⟨.MSG_POLL, rfl, rfl⟩
  · exact ⟨.MSG_BACKLOG, rfl, rfl⟩
  · exact ⟨.MSG_ACK, rfl, rfl⟩
  · exact ⟨.MSG_NACK, rfl, rfl⟩

/-- Witness for `get_message_valid_frame_fields` at the spec's scenario
frame, with marker 0xAA and the constant checksum returning 0x7F. -/
theorem get_message_valid_frame_fields_witness :
    ∃ mt : MessageType, mt.toNat = 1 ∧
      get_message (some [0xAA, 1, 6, 0, 0x42, 0, 0x75, 9, 0x29, 0x7F]) =
        .ok ⟨some 0xAA, some mt, some 6, some [0, 0x42, 0, 0x75, 9, 0x29],
          some 0x7F⟩ :=
  get_message_valid_frame_fields (fun _ => 0x7F) 0xAA 0xAA 1 6 0 0x42 0
    0x75 9 0x29 0x7F rfl rfl (Or.inr (Or.inl rfl))

/-- Claim C6: for every 10-byte frame whose `msg_type` byte is not one
of the recognized values 0, 1, 0xFE, 0xFF, `get_message` fails with the
error raised by the `MessageType` constructor on that byte (the
`ValueError` modelling `FrameError::UnknownType`), not a `Message`. -/
theorem get_message_unknown_type (b0 b1 b2 b3 b4 b5 b6 b7 b8 b9 : Nat)
    (htype : ¬(b1 = 0 ∨ b1 = 1 ∨ b1 = 0xFE ∨ b1 = 0xFF)) :
    get_message (some [b0, b1, b2, b3, b4, b5, b6, b7, b8, b9]) =
      .error (.valueError b1) := by
  push_neg at htype
  obtain ⟨h1, h2, h3, h4⟩ := htype
  have hov : MessageType.ofValue b1 = .error (.valueError b1) := by
    unfold MessageType.ofValue
    rw [if_neg h1, if_neg h2, if_neg h3, if_neg h4]
  have key : get_message (some [b0, b1, b2, b3, b4, b5, b6, b7, b8, b9]) =
      (match MessageType.ofValue b1 with
       | .error e => .error e
       | .ok mt =>
          .ok ⟨some b0, some mt, some b2, some [b3, b4, b5, b6, b7, b8],
            some b9⟩ : Except PyErr Message) := rfl
  rw [key, hov]

/-- Witness for `get_message_unknown_type` at a frame with type byte 2. -/
theorem get_message_unknown_type_witness :
    get_message (some [0xAA, 2, 6, 0, 0x42, 0, 0x75, 9, 0x29, 0]) =
      .error (.valueError 2) :=
  get_message_unknown_type 0xAA 2 6 0 0x42 0 0x75 9 0x29 0 (by decide)

/-- Claim C5: for every 6-byte `Pub` payload whose sensor code (the
big-endian 16-bit field in bytes 2-4) is 0x75, `from_buffer` decodes
`Temperature`; for 0x76 it decodes `Humidity`; for any other code it
fails with the `ValueError` carrying the raw code (modelling
`PayloadError::UnknownSensor`), regardless of the other payload
bytes. -/
theorem from_buffer_sensor_codes (p0 p1 p2 p3 p4 p5 : Nat) :
    (beBytes [p2, p3] = 0x75 →
      from_buffer [p0, p1, p2, p3, p4, p5] =
        .ok ⟨beBytes [p0, p1], .Temperature, (beBytes [p4, p5] : ℚ) / 100⟩) ∧
    (beBytes [p2, p3] = 0x76 →
      from_buffer [p0, p1, p2, p3, p4, p5] =
        .ok ⟨beBytes [p0, p1], .Humidity, (beBytes [p4, p5] : ℚ) / 100⟩) ∧
    (beBytes [p2, p3] ≠ 0x75 → beBytes [p2, p3] ≠ 0x76 →
      from_buffer [p0, p1, p2, p3, p4, p5] =
        .error (.valueError (beBytes [p2, p3]))) := by
  have key : from_buffer [p0, p1, p2, p3, p4, p5] =
      (match SensorTypes.ofValue (beBytes [p2, p3]) with
       | .error e => .error e
       | .ok s => .ok ⟨beBytes [p0, p1], s, (beBytes [p4, p5] : ℚ) / 100⟩ :
        Except PyErr SensorEvent) := rfl
  refine ⟨fun h => ?_, fun h => ?_, fun h1 h2 => ?_⟩
  · rw [key, h]
    rfl
  · rw [key, h]
    rfl
  · have hov : SensorTypes.ofValue (beBytes [p2, p3]) =
        .error (.valueError (beBytes [p2, p3])) := by
      unfold SensorTypes.ofValue
      rw [if_neg h1, if_neg h2]
    rw [key, hov]

/-- Witness for `from_buffer_sensor_codes` at payloads with sensor
codes 0x75, 0x76 and 0x77. -/
theorem from_buffer_sensor_codes_witness :
    from_buffer [0, 1, 0, 0x75, 0, 50] =
      .ok ⟨beBytes [0, 1], .Temperature, (beBytes [0, 50] : ℚ) / 100⟩ ∧
    from_buffer [0, 1, 0, 0x76, 0, 50] =
      .ok ⟨beBytes [0, 1], .Humidity, (beBytes [0, 50] : ℚ) / 100⟩ ∧
    from_buffer [0, 1, 0, 0x77, 0, 50] =
      .error (.valueError (beBytes [0, 0x77])) :=
  ⟨(from_buffer_sensor_codes 0 1 0 0x75 0 50).1 (by decide),
   (from_buffer_sensor_codes 0 1 0 0x76 0 50).2.1 (by decide),
   (from_buffer_sensor_codes 0 1 0 0x77 0 50).2.2 (by decide) (by decide)⟩

/-- Claim C4: for every 6-byte `Pub` payload accepted by `from_buffer`,
`node_addr` is the big-endian 16-bit integer of bytes 0-1, the sensor
kind's code is the big-endian field of bytes 2-4, and `value` is the
big-endian integer of bytes 4-6 divided by 100; in particular the
payload `[0x00, 0x42, 0x00, 0x75, 0x09, 0x29]` decodes to
`node_addr = 66`, `Temperature`, `value = 23.45`. -/
theorem from_buffer_pub_layout (p0 p1 p2 p3 p4 p5 : Nat) (ev : SensorEvent)
    (h : from_buffer [p0, p1, p2, p3, p4, p5] = .ok ev) :
    (ev.node_addr = beBytes [p0, p1] ∧ ev.sensor.code = beBytes [p2, p3] ∧
      ev.value = (beBytes [p4, p5] : ℚ) / 100) ∧
    from_buffer [0x00, 0x42, 0x00, 0x75, 0x09, 0x29] =
      .ok ⟨66, .Temperature, (23.45 : ℚ)⟩ := by
  have key : from_buffer [p0, p1, p2, p3, p4, p5] =
      (match SensorTypes.ofValue (beBytes [p2, p3]) with
       | .error e => .error e
       | .ok s => .ok ⟨beBytes [p0, p1], s, (beBytes [p4, p5] : ℚ) / 100⟩ :
        Except PyErr SensorEvent) := rfl
  rw [key] at h
  constructor
  · cases hs : SensorTypes.ofValue (beBytes [p2, p3]) with
    | error e =>
      rw [hs] at h
      cases h
    | ok s =>
      rw [hs] at h
      cases h
      exact ⟨rfl, SensorTypes.code_of_ofValue _ _ hs, rfl⟩
  · have h2345 : (23.45 : ℚ) = (2345 : ℚ) / 100 := by norm_num
    rw [h2345]
    rfl

/-- Witness for `from_buffer_pub_layout` at the spec's scenario
payload. -/
theorem from_buffer_pub_layout_witness :
    ((⟨66, .Temperature, (2345 : ℚ) / 100⟩ : SensorEvent).node_addr =
        beBytes [0x00, 0x42] ∧
      (⟨66, .Temperature, (2345 : ℚ) / 100⟩ : SensorEvent).sensor.code =
        beBytes [0x00, 0x75] ∧
      (⟨66, .Temperature, (2345 : ℚ) / 100⟩ : SensorEvent).value =
        (beBytes [0x09, 0x29] : ℚ) / 100) ∧
    from_buffer [0x00, 0x42, 0x00, 0x75, 0x09, 0x29] =
      .ok ⟨66, .Temperature, (23.45 : ℚ)⟩ :=
  from_buffer_pub_layout 0x00 0x42 0x00 0x75 0x09 0x29
    ⟨66, .Temperature, (2345 : ℚ) / 100⟩ (by rfl)

/-- Claim C8 (counterexample): value bytes `0xFF 0xFF` (sign bit set)
decode to the large positive value 655.35, not a negative value:
`int.from_bytes` is used with its unsigned default. -/
theorem from_buffer_sign_bit_positive :
    from_buffer [0x00, 0x01, 0x00, 0x75, 0xFF, 0xFF] =
      .ok ⟨1, .Temperature, (65535 : ℚ) / 100⟩ ∧
    (0 : ℚ) < (65535 : ℚ) / 100 :=
  ⟨rfl, by norm_num⟩

/-- Claim C8 (amended): the value field is decoded as an UNSIGNED
big-endian integer in centi-units, the domain value being that integer
divided by 100; consequently every decoded value is nonnegative, and a
payload with the sign bit set yields a large positive value, never a
negative one. -/
theorem from_buffer_value_unsigned (buf : List Nat) (ev : SensorEvent)
    (h : from_buffer buf = .ok ev) :
    ev.value = (beBytes (buf.drop 4) : ℚ) / 100 ∧ 0 ≤ ev.value := by
  unfold from_buffer at h
  cases hs : SensorTypes.ofValue (beBytes ((buf.drop 2).take 2)) with
  | error e =>
    rw [hs] at h
    cases h
  | ok s =>
    rw [hs] at h
    cases h
    exact ⟨rfl, by positivity⟩

/-- Witness for `from_buffer_value_unsigned` at the payload with value
bytes `0xFF 0xFF`. -/
theorem from_buffer_value_unsigned_witness :
    (⟨1, .Temperature, (65535 : ℚ) / 100⟩ : SensorEvent).value =
      (beBytes ([0x00, 0x01, 0x00, 0x75, 0xFF, 0xFF].drop 4) : ℚ) / 100 ∧
    (0 : ℚ) ≤ (⟨1, .Temperature, (65535 : ℚ) / 100⟩ : SensorEvent).value :=
  from_buffer_value_unsigned [0x00, 0x01, 0x00, 0x75, 0xFF, 0xFF]
    ⟨1, .Temperature, (65535 : ℚ) / 100⟩ (by rfl)

/-- `buf[i]` succeeds only within bounds. -/
lemma byteAt_ok_lt (l : List Nat) (i v : Nat) (h : byteAt l i = .ok v) :
    i < l.length := by
  unfold byteAt at h
  cases hg : l.get? i with
  | none =>
    rw [hg] at h
    cases h
  | some w =>
    obtain ⟨hlt, _⟩ := List.get?_eq_some.mp hg
    exact hlt

/-- `get_message` only returns a `Message` when the source supplied a
full 10-byte read: the final `buf[9]` access requires it. -/
lemma get_message_ok_length (src : List Nat) (m : Message)
    (h : get_message (some src) = .ok m) : 10 ≤ src.length := by
  simp only [get_message] at h
  split at h
  · cases h
  · split at h
    · cases h
    · split at h
      · cases h
      · split at h
        · cases h
        · split at h
          · cases h
          · rename_i b9 hb9
            have h9 : 9 < (src.take 10).length := byteAt_ok_lt _ _ _ hb9
            rw [List.length_take] at h9
            omega

/-- Claim C7 (counterexample): on the spec's truncated 5-byte input the
code raises `IndexError` at the `buf[9]` access (an uncaught exception),
not a typed `Truncated` frame error; no such error value exists in the
code. -/
theorem get_message_truncated_raises :
    get_message (some [0xAA, 0x01, 0x06, 0x00, 0x42]) =
      .error .indexError :=
  rfl

/-- Claim C7 (amended): whenever the source holds fewer than 10 bytes,
`get_message` never returns a `Message`; it fails with a Python
exception (`IndexError` from indexing past the short buffer, or
`ValueError` first when the type byte is also unrecognized).  The
single `read(10)` consumes only the bytes available. -/
theorem get_message_short_read_errors (src : List Nat)
    (hlen : src.length < 10) :
    ∃ e : PyErr, get_message (some src) = .error e := by
  cases hres : get_message (some src) with
  | error e => exact ⟨e, rfl⟩
  | ok m => exact absurd (get_message_ok_length src m hres) (by omega)

/-- Witness for `get_message_short_read_errors` at the 5-byte truncated
input. -/
theorem get_message_short_read_errors_witness :
    ∃ e : PyErr,
      get_message (some [0xAA, 0x01, 0x06, 0x00, 0x42]) = .error e :=
  get_message_short_read_errors [0xAA, 0x01, 0x06, 0x00, 0x42] (by decide)

/-- Claim C9: sink initialization writes the header row exactly once on
first-ever initialization, leaves an existing file untouched (header not
rewritten, contents unchanged), and is idempotent: initializing twice
never produces two header rows. -/
theorem initSink_header_once :
    initSink none = some [headerRow] ∧
    (∀ rows : List (List String), initSink (some rows) = some rows) ∧
    (∀ f : Option (List (List String)), initSink (initSink f) = initSink f) ∧
    headerCount (initSink (initSink none)) = 1 := by
  refine ⟨rfl, fun rows => rfl, fun f => ?_, ?_⟩
  · cases f <;> rfl
  · rfl

/-- Claim C10: with the serial handle `None`, `get_message` returns a
freshly constructed `Message()` with none of its five attributes
assigned (so any attribute access by the caller fails), rather than
blocking, raising, or returning a typed disconnection error. -/
theorem get_message_disconnected_empty :
    get_message none = .ok Message.new ∧
    Message.new.start = none ∧ Message.new.msg_type = none ∧
    Message.new.payload_size = none ∧ Message.new.payload = none ∧
    Message.new.crc = none :=
  ⟨rfl, rfl, rfl, rfl, rfl, rfl⟩
